import Mathlib

/-!
Verification of the m5nas_monitor client agent (rvojcik/nas-external-monitor).

The Python sources are shallowly embedded: Python `str` is Lean `String`
(all inputs of interest are ASCII), machine floats that are only ever
produced by exact operations (division by 1024, parsing of small decimal
literals) are modelled as exact rationals, Python dicts are modelled as
insertion-ordered association lists, and results of external subprocess /
filesystem probes are supplied through explicit environment records.
-/

namespace NasMon

/-! ## ASCII string toolkit (Python `str` operations, ASCII fragment) -/

/-- ASCII lower-casing of one character, as Python `str.lower` acts on ASCII. -/
def lowChar (c : Char) : Char :=
  if 65 ≤ c.toNat ∧ c.toNat ≤ 90 then Char.ofNat (c.toNat + 32) else c

/-- ASCII upper-casing of one character, as Python `str.upper` acts on ASCII. -/
def upChar (c : Char) : Char :=
  if 97 ≤ c.toNat ∧ c.toNat ≤ 122 then Char.ofNat (c.toNat - 32) else c

/-- ASCII alphabetic test (Python `str.isalpha` on ASCII, used by `str.title`). -/
def isAsciiAlpha (c : Char) : Bool :=
  decide ((65 ≤ c.toNat ∧ c.toNat ≤ 90) ∨ (97 ≤ c.toNat ∧ c.toNat ≤ 122))

/-- ASCII digit test (regex `\d`). -/
def isAsciiDigit (c : Char) : Bool :=
  decide (48 ≤ c.toNat ∧ c.toNat ≤ 57)

/-- Python whitespace (`str.split()` / `str.strip()` / regex `\s` on ASCII):
space, tab, newline, carriage return, vertical tab, form feed. -/
def isPySpace (c : Char) : Bool :=
  decide (c.toNat = 32 ∨ c.toNat = 9 ∨ c.toNat = 10 ∨ c.toNat = 13 ∨ c.toNat = 11 ∨ c.toNat = 12)

/-- Python `str.lower` (ASCII fragment). -/
def pyLower (s : String) : String := ⟨s.data.map lowChar⟩

/-- Python `str.upper` (ASCII fragment). -/
def pyUpper (s : String) : String := ⟨s.data.map upChar⟩

/-- Python `s.startswith(p)`. -/
def pyStartsWith (s p : String) : Bool := List.isPrefixOf p.data s.data

/-- Substring occurrence on character lists (Python `sub in s`). -/
def listInfix (p : List Char) : List Char → Bool
  | [] => p.isEmpty
  | c :: t => List.isPrefixOf p (c :: t) || listInfix p t

/-- Python `sub in s`. -/
def pyContains (s sub : String) : Bool := listInfix sub.data s.data

/-- Split a character list at every occurrence of a separator character
(Python `str.split(sep)` for a one-character separator). -/
def splitChar (c : Char) : List Char → List (List Char)
  | [] => [[]]
  | x :: xs =>
    match splitChar c xs with
    | [] => [[]]
    | h :: t => if x = c then [] :: h :: t else (x :: h) :: t

/-- Python `content.split('\n')`. -/
def pySplitLines (s : String) : List String :=
  (splitChar '\n' s.data).map (fun l => (⟨l⟩ : String))

/-- Split at runs of characters satisfying a predicate, keeping the pieces
between the runs (empty pieces included; callers filter). -/
def splitPred (p : Char → Bool) : List Char → List (List Char)
  | [] => [[]]
  | x :: xs =>
    match splitPred p xs with
    | [] => [[]]
    | h :: t => if p x then [] :: h :: t else (x :: h) :: t

/-- Python no-argument `str.split()`: split on whitespace runs, discarding
empty pieces. -/
def pySplitWs (s : String) : List String :=
  ((splitPred isPySpace s.data).filter (fun l => l ≠ [])).map (fun l => (⟨l⟩ : String))

/-- Python `str.strip()`. -/
def pyStrip (s : String) : String :=
  ⟨((s.data.dropWhile isPySpace).reverse.dropWhile isPySpace).reverse⟩

/-- One step of Python `str.title` (ASCII fragment): the flag records whether
the previous character was alphabetic. -/
def titleAux : List Char → Bool → List Char
  | [], _ => []
  | c :: rest, prevAlpha =>
    (if isAsciiAlpha c then (if prevAlpha then lowChar c else upChar c) else c)
      :: titleAux rest (isAsciiAlpha c)

/-- Python `str.title` (ASCII fragment). -/
def pyTitle (s : String) : String := ⟨titleAux s.data false⟩

/-- Python `','.join(xs)`. -/
def joinComma : List String → String
  | [] => ""
  | [x] => x
  | x :: y :: t => x ++ "," ++ joinComma (y :: t)

/-! ## `MdadmCollector._format_size` (collectors/mdadm.py 254-270)

The Python loop divides a float by 1024 until it drops below 1024 (at most
five times).  For inputs below `2 ^ 53` every intermediate float is exact, so
the computation is modelled with exact naturals: the running value after `i`
divisions is `size_bytes / 1024 ^ i`.  `f"{size:.1f}"` prints the value
rounded to one decimal place with ties to even, which for the exact value
`num / den` is computed on `10 * num / den`. -/

/-- One-decimal rendering of the exact value `num / den` (`den > 0`),
rounding half to even, as `f"{x:.1f}"` does for an exactly-represented
float. -/
def formatDec1 (num den : ℕ) : String :=
  let t := 10 * num
  let q := t / den
  let r := t % den
  let rounded := if den < 2 * r then q + 1
    else if 2 * r < den then q
    else if q % 2 = 0 then q else q + 1
  toString (rounded / 10) ++ "." ++ toString (rounded % 10)

/-- The unit names of `_format_size`. -/
def sizeUnits : List String := ["B", "KB", "MB", "GB", "TB", "PB"]

/-- The `while size >= 1024 and unit_index < len(units) - 1` loop of
`_format_size`, returning the final `unit_index`; the running value after
`i` steps is `n / 1024 ^ i`, so the loop guard is `1024 ^ (i+1) ≤ n`.
The fuel argument (5 at the call site) only bounds the iteration count,
which the `i < 5` guard already limits. -/
def sizeLoopIdx (n : ℕ) : ℕ → ℕ → ℕ
  | 0, i => i
  | fuel + 1, i =>
    if 1024 ^ (i + 1) ≤ n ∧ i < 5 then sizeLoopIdx n fuel (i + 1) else i

/-- `MdadmCollector._format_size` (exact model, faithful for
`size_bytes < 2 ^ 53`). -/
def format_size (size_bytes : ℕ) : String :=
  if size_bytes = 0 then "0B"
  else
    let unit_index := sizeLoopIdx size_bytes 5 0
    if unit_index = 0 then toString size_bytes ++ "B"
    else formatDec1 size_bytes (1024 ^ unit_index) ++ sizeUnits.getD unit_index ""

/-! ## `NetworkCollector._get_ipv6_address` (collectors/network.py 140-159)

The environment is the list of address strings that `netifaces` reports for
the chosen interface (each `addr.get('addr', '')`). -/

/-- Zone-suffix stripping: `if '%' in ip: ip = ip.split('%')[0]`. -/
def stripZone (ip : String) : String :=
  if ip.data.contains '%' then ⟨(splitChar '%' ip.data).headD []⟩ else ip

/-- `NetworkCollector._get_ipv6_address`, given the interface's IPv6 address
strings in report order. -/
def get_ipv6_address : List String → String
  | [] => ""
  | ip :: rest =>
    if ip ≠ "" ∧ ¬pyStartsWith ip "::1" ∧ ¬pyStartsWith ip "fe80" then stripZone ip
    else get_ipv6_address rest

/-- The C7 claim's own selection rule, written from the spec's words: the
first address that is neither **the loopback address** (`::1` itself) nor
link-local-prefixed (`fe80`), zone suffix stripped. Used only to exhibit
where the claim and the code part ways. -/
def claimC7_ipv6 (addrs : List String) : String :=
  match addrs.find? (fun ip => ip ≠ "" && ip != "::1" && !pyStartsWith ip "fe80") with
  | some ip => stripZone ip
  | none => ""

/-! ## `MdadmCollector` state parsing (collectors/mdadm.py 107-170, 272-285) -/

/-- Regex `^md\d+\s*:` anchored match (used for section breaks and array
discovery): `md`, one or more digits, optional whitespace, `:`. -/
def mdColonMatch (s : String) : Bool :=
  match s.data with
  | 'm' :: 'd' :: rest =>
    !(rest.takeWhile isAsciiDigit).isEmpty &&
      (match (rest.dropWhile isAsciiDigit).dropWhile isPySpace with
       | ':' :: _ => true
       | _ => false)
  | _ => false

/-- Regex `re.sub(r'\[\d+\]', '', part)`: delete every occurrence of `[`,
one or more digits, `]`.  Structural recursion on a character-count fuel
(each step consumes at least one character, so `l.length` fuel suffices). -/
def subBracketsF : ℕ → List Char → List Char
  | 0, l => l
  | _ + 1, [] => []
  | fuel + 1, c :: rest =>
    if c = '[' then
      match rest.takeWhile isAsciiDigit, rest.dropWhile isAsciiDigit with
      | _ :: _, ']' :: rest2 => subBracketsF fuel rest2
      | _, _ => c :: subBracketsF fuel rest
    else c :: subBracketsF fuel rest

/-- `re.sub(r'\[\d+\]', '', ·)` on a string. -/
def subBrackets (s : String) : String := ⟨subBracketsF s.data.length s.data⟩

/-- The `for line in lines` loop of `_get_array_state` that collects the
array's section: a line starting with `array_name + ' :'` opens the section;
once inside, a blank line or a new `mdNN :` header ends it. -/
def sectionLoop (array_name : String) : List String → Bool → List String → List String
  | [], _, acc => acc
  | l :: rest, inArray, acc =>
    if pyStartsWith l (array_name ++ " :") then sectionLoop array_name rest true (acc ++ [l])
    else if inArray then
      if pyStrip l = "" ∨ mdColonMatch l then acc
      else sectionLoop array_name rest true (acc ++ [l])
    else sectionLoop array_name rest inArray acc

/-- The `info` dict built by `_get_array_state` (keys that may be absent are
`Option`). -/
structure MdStateInfo where
  state : Option String
  raid_level : Option String
  devices : Option String
  deriving DecidableEq

/-- The continuation-line scan of `_get_array_state`: keywords in later
lines of the section override the primary state token. -/
def contLineState (sectionTail : List String) (st0 : Option String) : Option String :=
  sectionTail.foldl (fun st line =>
    let l := pyStrip line
    if pyContains (pyLower l) "recovery" then some "recovering"
    else if pyContains (pyLower l) "resync" then some "resyncing"
    else if pyContains (pyLower l) "degraded" then some "degraded"
    else if pyContains (pyLower l) "failed" then some "failed"
    else st) st0

/-- `MdadmCollector._get_array_state`, with the `/proc/mdstat` content
supplied as the `content` argument (the code reads it from the file). -/
def get_array_state (array_name : String) (content : String) : Option MdStateInfo :=
  let lines := pySplitLines content
  let array_section := sectionLoop array_name lines false []
  if array_section.isEmpty then none
  else
    let first_line := array_section.headD ""
    let parts := pySplitWs first_line
    let info0 : MdStateInfo := ⟨none, none, none⟩
    let info1 :=
      if 3 ≤ parts.length then
        let infoA := { info0 with state := some (parts.getD 2 "") }
        let infoB :=
          if 4 ≤ parts.length then { infoA with raid_level := some (parts.getD 3 "") }
          else infoA
        let devices := ((parts.drop 4).map subBrackets).filter (fun d => d ≠ "")
        { infoB with devices := some (joinComma devices) }
      else info0
    some { info1 with state := contLineState (array_section.drop 1) info1.state }

/-- The `state_map` dict of `MdadmCollector._map_state`. -/
def state_map : List (String × String) :=
  [("active", "Healthy"), ("clean", "Healthy"), ("degraded", "Degraded"),
   ("recovering", "Recovering"), ("resyncing", "Resyncing"), ("failed", "Failed"),
   ("inactive", "Offline"), ("spare", "Spare")]

/-- `MdadmCollector._map_state`: look the lower-cased state up in
`state_map`, falling back to `str.title` of the input. -/
def map_state (mdadm_state : String) : String :=
  match state_map.find? (fun kv => kv.1 == pyLower mdadm_state) with
  | some kv => kv.2
  | none => pyTitle mdadm_state

/-! ## `TemperatureCollector` (collectors/temperature.py 21-39, 173-185)

The results of the external probes (the `sensors`/`psutil`/thermal-zone CPU
chain, and per-device `smartctl` temperature extraction) are supplied by an
environment record; `collect` and `_get_hdd_temperatures` are embedded from
the source.  Temperatures are exact rationals. -/

/-- External probe results for the temperature collector: `cpuTemp` is what
`_get_cpu_temperature()` returns, `hddProbe d` is what
`_get_single_hdd_temperature(d)` returns (`0.0` for a missing device or any
failure, per the source). -/
structure TempEnv where
  cpuTemp : ℚ
  hddProbe : String → ℚ

/-- A Python dict from string keys to float values, as an insertion-ordered
association list. -/
abbrev PyDict := List (String × ℚ)

/-- Python `d[k] = v`: replace the value at an existing key in place, else
append the new key at the end (dict insertion order). -/
def dsetItem : PyDict → String → ℚ → PyDict
  | [], k, v => [(k, v)]
  | kv :: t, k, v => if kv.1 == k then (k, v) :: t else kv :: dsetItem t k v

/-- Python `k in d`. -/
def dContains (d : PyDict) (k : String) : Bool := d.any (fun kv => kv.1 == k)

/-- Python `list(d.keys())` (insertion order). -/
def dkeys (d : PyDict) : List String := d.map Prod.fst

/-- Python `d[k]` / `d.get(k)`. -/
def dget (d : PyDict) (k : String) : Option ℚ :=
  (d.find? (fun kv => kv.1 == k)).map Prod.snd

/-- `TemperatureCollector._get_hdd_temperatures`: one entry per configured
device, in order; a probe result that is not `> 0` contributes `0.0`. -/
def get_hdd_temperatures (env : TempEnv) (hdd_devices : List String) : List ℚ :=
  hdd_devices.map (fun device =>
    let temp := env.hddProbe device
    if temp > 0 then temp else 0)

/-- Slot name `f'hdd{i}'`. -/
def hddName (i : ℕ) : String := "hdd" ++ toString i

/-- The `for i, temp in enumerate(hdd_temps[:5], 1)` loop of `collect`. -/
def enumLoop : PyDict → List ℚ → ℕ → PyDict
  | temps, [], _ => temps
  | temps, t :: rest, i => enumLoop (dsetItem temps (hddName i) t) rest (i + 1)

/-- The `for i in range(1, 6)` fill loop of `collect`. -/
def fillLoop (temps : PyDict) : PyDict :=
  [1, 2, 3, 4, 5].foldl
    (fun d i => if dContains d (hddName i) then d else dsetItem d (hddName i) 0) temps

/-- `TemperatureCollector.collect`. -/
def temperature_collect (env : TempEnv) (hdd_devices : List String) : PyDict :=
  let temps := dsetItem [] "system" env.cpuTemp
  let hdd_temps := get_hdd_temperatures env hdd_devices
  fillLoop (enumLoop temps (hdd_temps.take 5) 1)

/-- The value claim C1 predicts for slot `i` (1-based): the probe result for
the `i`-th configured device if positive, `0.0` for a failed probe or a
missing device. -/
def slotSpec (env : TempEnv) (hdd_devices : List String) (i : ℕ) : ℚ :=
  match hdd_devices.get? (i - 1) with
  | some d => if env.hddProbe d > 0 then env.hddProbe d else 0
  | none => 0

/-- External probe results for `TemperatureCollector.get_storage_health`:
`deviceExists d` is `Path(d).exists()`, `smartctlH d` is the stdout of
`smartctl -H d` when that run has return code 0, `none` when the run fails
or raises (which the source skips silently). -/
structure SmartEnv where
  deviceExists : String → Bool
  smartctlH : String → Option String

/-- `TemperatureCollector.get_storage_health`: `"Problem"` as soon as one
existing device's successful `smartctl -H` output contains `failed` or
`error` (lower-cased), else `"Healthy"`.  (The source's outer exception
handler returning `"Unknown"` guards only the iteration machinery and is
unreachable in this model.) -/
def get_storage_health (env : SmartEnv) (hdd_devices : List String) : String :=
  if hdd_devices.any (fun device =>
      env.deviceExists device &&
        (match env.smartctlH device with
         | some out => pyContains (pyLower out) "failed" || pyContains (pyLower out) "error"
         | none => false))
  then "Problem" else "Healthy"

/-! ## `StorageCollector` (collectors/storage.py) -/

/-- One storage volume dict as produced by `_collect_zfs` /
`MdadmCollector.collect`.  Only the fields read by
`get_overall_storage_state` and the transport are modelled; `.get` defaults
(`''`) stand in for keys the producing backend does not set. -/
structure Volume where
  vname : String
  capacity : String
  usage : String
  state : String
  health : String
  raw_state : String
  vtype : String
  deriving DecidableEq

/-- The configuration slice of `StorageCollector.__init__` that
`collect` / `get_overall_storage_state` read. -/
structure StorageConfig where
  storage_types : List String
  enabled : Bool
  health_enabled : Bool

/-- External results for the storage backends: the volume dicts which
`_collect_zfs` (before its `info['type'] = 'ZFS'` stamp) and
`self.mdadm_collector.collect()` produce.  Tool unavailability or any
failure is an empty list, per the source. -/
structure StorageEnv where
  zfs_volumes : List Volume
  mdadm_volumes : List Volume

/-- `StorageCollector._collect_zfs`: each pool dict is stamped
`info['type'] = 'ZFS'`. -/
def collect_zfs (env : StorageEnv) : List Volume :=
  env.zfs_volumes.map (fun v => { v with vtype := "ZFS" })

/-- `StorageCollector._collect_mdadm`: `MdadmCollector._get_array_info`
stamps `'type': 'MDADM'` on every array dict. -/
def collect_mdadm (env : StorageEnv) : List Volume :=
  env.mdadm_volumes.map (fun v => { v with vtype := "MDADM" })

/-- `StorageCollector.collect`: empty when disabled, else the ZFS volumes
followed by the MDADM volumes, each backend only when configured. -/
def storage_collect (c : StorageConfig) (env : StorageEnv) : List Volume :=
  if !c.enabled then []
  else
    (if c.storage_types.contains "zfs" then collect_zfs env else []) ++
    (if c.storage_types.contains "mdadm" then collect_mdadm env else [])

/-- The ZFS raw-health values `get_overall_storage_state` treats as a
problem. -/
def zfsProblemStates : List String :=
  ["DEGRADED", "FAULTED", "OFFLINE", "UNAVAIL", "SUSPENDED"]

/-- The MDADM raw-state values `get_overall_storage_state` treats as a
problem. -/
def mdadmProblemStates : List String :=
  ["degraded", "failed", "inactive", "recovering", "resyncing"]

/-- The pool-scanning part of `get_overall_storage_state`, given the
collected volume list: the ZFS loop checks `volume['health'].upper()`, the
MDADM loop checks `volume['raw_state'].lower()`; the first problem found
returns `"Problem"`. -/
def overall_of_volumes (storage_types : List String) (vols : List Volume) : String :=
  if vols.isEmpty then "Unknown"
  else if storage_types.contains "zfs" &&
      vols.any (fun v => v.vtype == "ZFS" && zfsProblemStates.contains (pyUpper v.health))
    then "Problem"
  else if storage_types.contains "mdadm" &&
      vols.any (fun v => v.vtype == "MDADM" && mdadmProblemStates.contains (pyLower v.raw_state))
    then "Problem"
  else "Healthy"

/-- `StorageCollector.get_overall_storage_state`. -/
def get_overall_storage_state (c : StorageConfig) (env : StorageEnv) : String :=
  if !c.enabled || !c.health_enabled then "Healthy"
  else overall_of_volumes c.storage_types (storage_collect c env)

/-- The per-volume condition under which the scan reports `"Problem"`. -/
def volProblem (storage_types : List String) (v : Volume) : Prop :=
  (storage_types.contains "zfs" = true ∧ v.vtype = "ZFS" ∧
    pyUpper v.health ∈ zfsProblemStates) ∨
  (storage_types.contains "mdadm" = true ∧ v.vtype = "MDADM" ∧
    pyLower v.raw_state ∈ mdadmProblemStates)

/-! ## `SerialClient.send_complete_update` (serial_client.py 95-196)

The serial channel is abstracted by an outcome oracle: `outcome i` is
whether the `i`-th `send_command` call of the cycle succeeds (a failed call
logs, drops the connection and returns `False` in the source; either way
control returns to `send_complete_update`). -/

/-- One-decimal formatting of a float temperature (`f"{t:.1f}"`), modelled
on the exact rational value with ties to even. -/
def fmt1 (q : ℚ) : String :=
  let t : ℚ := 10 * q
  let n : ℤ := ⌊t⌋
  let r : ℚ := t - n
  let k : ℤ := if r > 1 / 2 then n + 1 else if r < 1 / 2 then n else if n % 2 = 0 then n else n + 1
  let m : ℕ := k.toNat
  toString (m / 10) ++ "." ++ toString (m % 10)

/-- The `NETWORK:` payload fields (`net.get('mac', '')` etc. of the network
dict, whose keys the network collector always sets). -/
structure NetData where
  mac : String
  ipv4 : String
  ipv6 : String
  deriving DecidableEq

/-- The `data` dict handed to `send_complete_update`: top-level keys may be
absent (`Option`). -/
structure UpdateData where
  temperatures : Option PyDict
  storage_state : Option String
  network : Option NetData
  pools : Option (List Volume)

/-- The command string built by `send_temperature_update`. -/
def send_temperature_update_cmd (temps : PyDict) (storage_state : String) : String :=
  "UPDATE:" ++ joinComma
    [fmt1 ((dget temps "system").getD 0), fmt1 ((dget temps "hdd1").getD 0),
     fmt1 ((dget temps "hdd2").getD 0), fmt1 ((dget temps "hdd3").getD 0),
     fmt1 ((dget temps "hdd4").getD 0), fmt1 ((dget temps "hdd5").getD 0),
     storage_state]

/-- The command string built by `send_network_update`. -/
def send_network_update_cmd (net : NetData) : String :=
  "NETWORK:" ++ net.mac ++ "," ++ net.ipv4 ++ "," ++ net.ipv6

/-- The command string built by `send_storage_pool` (fields via
`pool.get(·, '')`). -/
def send_storage_pool_cmd (pool : Volume) : String :=
  "POOL:" ++ pool.vname ++ "," ++ pool.capacity ++ "," ++ pool.usage ++ "," ++ pool.state

/-- The transport state accumulated across one `send_complete_update` call:
the commands issued so far (in order) and the running `success` flag. -/
structure SendState where
  sent : List String
  success : Bool
  deriving DecidableEq

/-- Issue one command: it is appended to the transcript and the cycle
success flag is and-ed with this command's outcome (`if not send(...):
success = False`). -/
def issueCmd (outcome : ℕ → Bool) (st : SendState) (cmd : String) : SendState :=
  { sent := st.sent ++ [cmd], success := st.success && outcome st.sent.length }

/-- `SerialClient.send_complete_update`: the three command groups in fixed
order, each guarded by key presence (and, for pools, non-emptiness); a
failed command never stops the remaining ones. -/
def send_complete_update (outcome : ℕ → Bool) (data : UpdateData) : SendState :=
  let st0 : SendState := { sent := [], success := true }
  let st1 :=
    match data.temperatures, data.storage_state with
    | some temps, some ss => issueCmd outcome st0 (send_temperature_update_cmd temps ss)
    | _, _ => st0
  let st2 :=
    match data.network with
    | some net => issueCmd outcome st1 (send_network_update_cmd net)
    | none => st1
  match data.pools with
  | some pools =>
    if pools.isEmpty then st2
    else pools.foldl (fun st p => issueCmd outcome st (send_storage_pool_cmd p))
      (issueCmd outcome st2 "POOL:RESET")
  | none => st2

/-- Issue a list of commands in order (`send_complete_update` is shown
equal to this applied to `cmdList`). -/
def issueAll (outcome : ℕ → Bool) (st : SendState) (cmds : List String) : SendState :=
  cmds.foldl (issueCmd outcome) st

/-- The full command sequence a `send_complete_update` call issues for a
given `data` dict — determined by the data alone, independent of any
command's outcome. -/
def cmdList (data : UpdateData) : List String :=
  (match data.temperatures, data.storage_state with
   | some temps, some ss => [send_temperature_update_cmd temps ss]
   | _, _ => []) ++
  (match data.network with
   | some net => [send_network_update_cmd net]
   | none => []) ++
  (match data.pools with
   | some pools => if pools.isEmpty then [] else "POOL:RESET" :: pools.map send_storage_pool_cmd
   | none => [])

/-- A command line of the `POOL:` family (`POOL:RESET` or a pool line). -/
def isPoolLine (s : String) : Bool := List.isPrefixOf "POOL:".data s.data

/-- A command line of the `UPDATE:` family. -/
def isUpdateLine (s : String) : Bool := List.isPrefixOf "UPDATE:".data s.data

/-- A command line of the `NETWORK:` family. -/
def isNetworkLine (s : String) : Bool := List.isPrefixOf "NETWORK:".data s.data

/-! ## Concrete fixtures used by witness theorems -/

/-- A sample ZFS pool volume dict. -/
def sampleVol : Volume :=
  { vname := "tank", capacity := "1TB", usage := "50%", state := "Healthy",
    health := "ONLINE", raw_state := "", vtype := "ZFS" }

/-- A sample degraded ZFS pool volume dict. -/
def degradedVol : Volume :=
  { vname := "tank", capacity := "1TB", usage := "50%", state := "Degraded",
    health := "DEGRADED", raw_state := "", vtype := "ZFS" }

/-- A sample network dict. -/
def sampleNet : NetData := { mac := "AA:BB:CC:DD:EE:FF", ipv4 := "192.168.1.2", ipv6 := "2001:db8::1" }

/-- A sample temperature dict. -/
def sampleTemps : PyDict := [("system", 42)]

/-- A sample probe environment: one device `/dev/sda` reading 30 °C. -/
def sampleTempEnv : TempEnv :=
  { cpuTemp := 42, hddProbe := fun d => if d == "/dev/sda" then 30 else 0 }

/-- A storage configuration with both backends enabled. -/
def sampleStorCfg : StorageConfig :=
  { storage_types := ["zfs", "mdadm"], enabled := true, health_enabled := true }

/-- A storage environment with one healthy ZFS pool. -/
def sampleStorEnv : StorageEnv := { zfs_volumes := [sampleVol], mdadm_volumes := [] }

/-! ## `NASMonitorDaemon.collect_all_data` (daemon.py 95-131) -/

/-- Everything `collect_all_data` draws on: the temperature collector's
probe environments and device list, the network collector's result, and the
storage collector's configuration and backend results. -/
structure DaemonEnv where
  tempEnv : TempEnv
  smartEnv : SmartEnv
  hdd_devices : List String
  network : NetData
  storConfig : StorageConfig
  storEnv : StorageEnv

/-- The snapshot dict built by `collect_all_data` (all four keys are set on
the successful path modelled here). -/
structure DaemonData where
  temperatures : PyDict
  storage_state : String
  network : NetData
  pools : List Volume

/-- `NASMonitorDaemon.collect_all_data`: the provisional storage state from
the temperature collector's SMART check is overridden by the storage
collector's verdict only when storage monitoring and storage health
monitoring are enabled and that verdict is not `"Unknown"`. -/
def collect_all_data (env : DaemonEnv) : DaemonData :=
  let temperatures := temperature_collect env.tempEnv env.hdd_devices
  let storage_state := get_storage_health env.smartEnv env.hdd_devices
  let network := env.network
  let storage_volumes := storage_collect env.storConfig env.storEnv
  let data : DaemonData := ⟨temperatures, storage_state, network, storage_volumes⟩
  if env.storConfig.enabled && env.storConfig.health_enabled then
    let storage_state2 := get_overall_storage_state env.storConfig env.storEnv
    if storage_state2 ≠ "Unknown" then { data with storage_state := storage_state2 } else data
  else data

end NasMon

namespace NasMon

/-! ## Character-level lemmas for the ASCII toolkit -/

theorem charOfNat_toNat (n : ℕ) (hn : n.isValidChar) : (Char.ofNat n).toNat = n := by
  unfold Char.ofNat
  rw [dif_pos hn]
  rfl

theorem toNat_lowChar (c : Char) :
    (lowChar c).toNat = if 65 ≤ c.toNat ∧ c.toNat ≤ 90 then c.toNat + 32 else c.toNat := by
  unfold lowChar
  by_cases h : 65 ≤ c.toNat ∧ c.toNat ≤ 90
  · rw [if_pos h, if_pos h, charOfNat_toNat _ (by left; omega)]
  · rw [if_neg h, if_neg h]

theorem toNat_upChar (c : Char) :
    (upChar c).toNat = if 97 ≤ c.toNat ∧ c.toNat ≤ 122 then c.toNat - 32 else c.toNat := by
  unfold upChar
  by_cases h : 97 ≤ c.toNat ∧ c.toNat ≤ 122
  · rw [if_pos h, if_pos h, charOfNat_toNat _ (by left; omega)]
  · rw [if_neg h, if_neg h]

theorem lowChar_lowChar (c : Char) : lowChar (lowChar c) = lowChar c := by
  have h2 : ¬(65 ≤ (lowChar c).toNat ∧ (lowChar c).toNat ≤ 90) := by
    rw [toNat_lowChar]
    by_cases hc : 65 ≤ c.toNat ∧ c.toNat ≤ 90
    · rw [if_pos hc]; omega
    · rw [if_neg hc]; omega
  show (if 65 ≤ (lowChar c).toNat ∧ (lowChar c).toNat ≤ 90
      then Char.ofNat ((lowChar c).toNat + 32) else lowChar c) = lowChar c
  rw [if_neg h2]

theorem isAsciiAlpha_lowChar (c : Char) : isAsciiAlpha (lowChar c) = isAsciiAlpha c := by
  have h := toNat_lowChar c
  unfold isAsciiAlpha
  by_cases hc : 65 ≤ c.toNat ∧ c.toNat ≤ 90
  · rw [if_pos hc] at h
    rw [h]
    simp only [decide_eq_decide]
    omega
  · rw [if_neg hc] at h
    rw [h]

theorem lowChar_eq_of_not_alpha (c : Char) (h : isAsciiAlpha c = false) : lowChar c = c := by
  unfold isAsciiAlpha at h
  unfold lowChar
  rw [if_neg]
  simp only [decide_eq_false_iff_not] at h
  omega

theorem charOfNat_toNat_self (c : Char) : Char.ofNat c.toNat = c :=
  Char.ofNat_toNat c

theorem upChar_lowChar (c : Char) : upChar (lowChar c) = upChar c := by
  by_cases hc : 65 ≤ c.toNat ∧ c.toNat ≤ 90
  · have hval : (c.toNat + 32).isValidChar := by left; omega
    have hl : lowChar c = Char.ofNat (c.toNat + 32) := by unfold lowChar; rw [if_pos hc]
    unfold upChar
    rw [hl, charOfNat_toNat _ hval, if_pos (by omega), if_neg (by omega)]
    have harg : c.toNat + 32 - 32 = c.toNat := by omega
    rw [harg, charOfNat_toNat_self]
  · have hl : lowChar c = c := by unfold lowChar; rw [if_neg hc]
    rw [hl]

theorem titleAux_map_lowChar (l : List Char) :
    ∀ b, titleAux (l.map lowChar) b = titleAux l b := by
  induction l with
  | nil => intro b; rfl
  | cons c t ih =>
    intro b
    simp only [List.map_cons, titleAux, isAsciiAlpha_lowChar, ih]
    by_cases ha : isAsciiAlpha c = true
    · cases b <;> simp [ha, lowChar_lowChar, upChar_lowChar]
    · have ha2 : isAsciiAlpha c = false := eq_false_of_ne_true ha
      simp [ha2, lowChar_eq_of_not_alpha c ha2]

theorem pyTitle_pyLower (s : String) : pyTitle (pyLower s) = pyTitle s := by
  unfold pyTitle pyLower
  simp only
  rw [titleAux_map_lowChar]

theorem pyLower_pyLower (s : String) : pyLower (pyLower s) = pyLower s := by
  unfold pyLower
  simp only [List.map_map]
  congr 1
  apply List.map_congr_left
  intro c _
  exact lowChar_lowChar c

end NasMon

namespace NasMon

/-! ## Transport lemmas -/

theorem issueAll_sent (outcome : ℕ → Bool) (cmds : List String) :
    ∀ st : SendState, (issueAll outcome st cmds).sent = st.sent ++ cmds := by
  induction cmds with
  | nil => intro st; simp [issueAll]
  | cons c cs ih =>
    intro st
    show (issueAll outcome (issueCmd outcome st c) cs).sent = st.sent ++ c :: cs
    rw [ih]
    simp [issueCmd]

theorem issueAll_success (outcome : ℕ → Bool) (cmds : List String) :
    ∀ st : SendState, (issueAll outcome st cmds).success = true ↔
      (st.success = true ∧ ∀ j, j < cmds.length → outcome (st.sent.length + j) = true) := by
  induction cmds with
  | nil => intro st; simp [issueAll]
  | cons c cs ih =>
    intro st
    show (issueAll outcome (issueCmd outcome st c) cs).success = true ↔ _
    rw [ih]
    simp only [issueCmd, List.length_append, List.length_cons, Bool.and_eq_true]
    constructor
    · rintro ⟨⟨hs, hc⟩, hrest⟩
      refine ⟨hs, ?_⟩
      intro j hj
      cases j with
      | zero => simpa using hc
      | succ j2 =>
        have := hrest j2 (by omega)
        simpa [Nat.add_comm, Nat.add_assoc, Nat.add_left_comm] using this
    · rintro ⟨hs, hall⟩
      refine ⟨⟨hs, by simpa using hall 0 (by omega)⟩, ?_⟩
      intro j hj
      have := hall (j + 1) (by omega)
      simpa [Nat.add_comm, Nat.add_assoc, Nat.add_left_comm] using this

theorem send_complete_update_eq (outcome : ℕ → Bool) (data : UpdateData) :
    send_complete_update outcome data = issueAll outcome ⟨[], true⟩ (cmdList data) := by
  obtain ⟨t, s, nw, pl⟩ := data
  cases t <;> cases s <;> cases nw <;> cases pl <;>
    simp only [send_complete_update, cmdList, issueAll, List.foldl_append, List.foldl_cons,
      List.foldl_nil, List.append_nil, List.nil_append] <;>
  · first
    | rfl
    | (rename_i pools
       by_cases hp : pools.isEmpty <;>
         simp [hp, List.foldl_map, List.foldl_cons])

end NasMon

namespace NasMon

/-! ## Command-line classification lemmas -/

theorem isPoolLine_temperature_cmd (temps : PyDict) (ss : String) :
    isPoolLine (send_temperature_update_cmd temps ss) = false := by
  simp [isPoolLine, send_temperature_update_cmd, String.data_append, List.isPrefixOf]

theorem isPoolLine_network_cmd (net : NetData) :
    isPoolLine (send_network_update_cmd net) = false := by
  simp [isPoolLine, send_network_update_cmd, String.data_append, List.isPrefixOf]

theorem isPoolLine_pool_cmd (p : Volume) :
    isPoolLine (send_storage_pool_cmd p) = true := by
  simp [isPoolLine, send_storage_pool_cmd, String.data_append, List.isPrefixOf]

theorem isPoolLine_reset : isPoolLine "POOL:RESET" = true := by decide

theorem isUpdateLine_temperature_cmd (temps : PyDict) (ss : String) :
    isUpdateLine (send_temperature_update_cmd temps ss) = true := by
  simp [isUpdateLine, send_temperature_update_cmd, String.data_append, List.isPrefixOf]

theorem isUpdateLine_network_cmd (net : NetData) :
    isUpdateLine (send_network_update_cmd net) = false := by
  simp [isUpdateLine, send_network_update_cmd, String.data_append, List.isPrefixOf]

theorem isUpdateLine_pool_cmd (p : Volume) :
    isUpdateLine (send_storage_pool_cmd p) = false := by
  simp [isUpdateLine, send_storage_pool_cmd, String.data_append, List.isPrefixOf]

theorem isUpdateLine_reset : isUpdateLine "POOL:RESET" = false := by decide

theorem isNetworkLine_temperature_cmd (temps : PyDict) (ss : String) :
    isNetworkLine (send_temperature_update_cmd temps ss) = false := by
  simp [isNetworkLine, send_temperature_update_cmd, String.data_append, List.isPrefixOf]

theorem isNetworkLine_network_cmd (net : NetData) :
    isNetworkLine (send_network_update_cmd net) = true := by
  simp [isNetworkLine, send_network_update_cmd, String.data_append, List.isPrefixOf]

theorem isNetworkLine_pool_cmd (p : Volume) :
    isNetworkLine (send_storage_pool_cmd p) = false := by
  simp [isNetworkLine, send_storage_pool_cmd, String.data_append, List.isPrefixOf]

theorem isNetworkLine_reset : isNetworkLine "POOL:RESET" = false := by decide

end NasMon

namespace NasMon

theorem cmdList_filter_pool_of_empty (data : UpdateData)
    (h : data.pools = none ∨ data.pools = some []) :
    (cmdList data).filter isPoolLine = [] := by
  obtain ⟨t, s, nw, pl⟩ := data
  rcases h with h | h <;> subst h <;>
    cases t <;> cases s <;> cases nw <;>
    simp [cmdList, isPoolLine_temperature_cmd, isPoolLine_network_cmd]

/-- Claim C2: an empty pool sequence produces no `POOL:*` line at all, and a
non-empty pool sequence produces exactly one `POOL:RESET` followed by one
`POOL:name,capacity,usage,state` line per pool, in input order. -/
theorem c2_pool_command_lines (data : UpdateData) (outcome : ℕ → Bool) :
    ((data.pools = none ∨ data.pools = some []) →
      (send_complete_update outcome data).sent.filter isPoolLine = []) ∧
    (∀ pools, data.pools = some pools → pools ≠ [] →
      (send_complete_update outcome data).sent.filter isPoolLine =
        "POOL:RESET" :: pools.map send_storage_pool_cmd) := by
  constructor
  · intro h
    rw [send_complete_update_eq, issueAll_sent]
    simpa using cmdList_filter_pool_of_empty data h
  · intro pools hp hne
    rw [send_complete_update_eq, issueAll_sent]
    obtain ⟨t, s, nw, pl⟩ := data
    simp only at hp
    subst hp
    have hfilter : (pools.map send_storage_pool_cmd).filter isPoolLine
        = pools.map send_storage_pool_cmd := by
      apply List.filter_eq_self.mpr
      intro a ha
      obtain ⟨p, _, rfl⟩ := List.mem_map.mp ha
      exact isPoolLine_pool_cmd p
    cases t <;> cases s <;> cases nw <;>
      simp [cmdList, isPoolLine_temperature_cmd, isPoolLine_network_cmd, isPoolLine_reset,
        List.isEmpty_iff, hne, List.filter_append, hfilter]

/-- Witness for C2 at concrete inputs. -/
theorem c2_pool_command_lines_witness :
    (send_complete_update (fun _ => true)
        { temperatures := some sampleTemps, storage_state := some "Healthy",
          network := some sampleNet, pools := some [] }).sent.filter isPoolLine = [] ∧
    (send_complete_update (fun _ => true)
        { temperatures := some sampleTemps, storage_state := some "Healthy",
          network := some sampleNet, pools := some [sampleVol] }).sent.filter isPoolLine =
      "POOL:RESET" :: [sampleVol].map send_storage_pool_cmd :=
  ⟨(c2_pool_command_lines _ _).1 (Or.inr rfl),
   (c2_pool_command_lines _ _).2 [sampleVol] rfl (by simp)⟩

/-- Claim C3: the command sequence issued by `send_complete_update` does not
depend on any command's outcome (a failure aborts nothing), and the returned
flag is `True` exactly when every issued command succeeded. -/
theorem c3_send_success_aggregate (data : UpdateData) (o1 o2 : ℕ → Bool) :
    (send_complete_update o1 data).sent = (send_complete_update o2 data).sent ∧
    ((send_complete_update o1 data).success = true ↔
      ∀ i, i < (send_complete_update o1 data).sent.length → o1 i = true) := by
  constructor
  · rw [send_complete_update_eq, send_complete_update_eq, issueAll_sent, issueAll_sent]
  · rw [send_complete_update_eq, issueAll_success, issueAll_sent]
    simp

end NasMon

namespace NasMon

/-- Claim C10: absent top-level keys silently skip their whole command
group without counting as a failure: `send_complete_update({})` issues no
command and returns `True`; an `UPDATE:` line is issued exactly when both
`temperatures` and `storage_state` are present, a `NETWORK:` line exactly
when `network` is present. -/
theorem c10_group_skipping (data : UpdateData) (outcome : ℕ → Bool) :
    (send_complete_update outcome ⟨none, none, none, none⟩).sent = [] ∧
    (send_complete_update outcome ⟨none, none, none, none⟩).success = true ∧
    ((send_complete_update outcome data).sent.any isUpdateLine =
      (data.temperatures.isSome && data.storage_state.isSome)) ∧
    ((send_complete_update outcome data).sent.any isNetworkLine = data.network.isSome) := by
  refine ⟨by rfl, by rfl, ?_, ?_⟩ <;>
  · rw [send_complete_update_eq, issueAll_sent]
    obtain ⟨t, s, nw, pl⟩ := data
    cases t <;> cases s <;> cases nw <;> rcases pl with _ | pools <;>
      simp [cmdList, isUpdateLine_temperature_cmd, isUpdateLine_network_cmd,
        isUpdateLine_reset, isNetworkLine_temperature_cmd, isNetworkLine_network_cmd,
        isNetworkLine_reset, List.any_append] <;>
      (try (rintro x - (rfl | ⟨a, -, rfl⟩) <;>
        simp [isUpdateLine_reset, isNetworkLine_reset,
          isUpdateLine_pool_cmd, isNetworkLine_pool_cmd]))

end NasMon

namespace NasMon

/-! ## C7: IPv6 extraction -/

/-- The qualification test the code applies to each reported address. -/
def ipv6Ok (ip : String) : Bool :=
  ip != "" && !pyStartsWith ip "::1" && !pyStartsWith ip "fe80"

/-- Counterexample to claim C7 as stated: `::123` is not the loopback
address and is not `fe80`-prefixed, so the claim's rule returns it, but the
code's `startswith('::1')` test drops it and returns `''`. -/
theorem c7_ipv6_counterexample :
    get_ipv6_address ["::123"] = "" ∧
    claimC7_ipv6 ["::123"] = "::123" ∧
    ("::123" : String) ≠ "::1" ∧ ("::123" : String) ≠ "" ∧
    pyStartsWith "::123" "fe80" = false := by
  refine ⟨by decide, by decide, by decide, by decide, by decide⟩

/-- Claim C7 (amended): the result is the first address that is non-empty,
not prefixed by `::1` (a prefix test, not an equality test against the
loopback address) and not prefixed by `fe80`, with any `%zone` suffix
stripped — `''` when no address qualifies.  The spec's two examples hold:
`fe80::1%eth0` is excluded entirely and `2001:db8::1%eth0` is returned as
`2001:db8::1`. -/
theorem c7_ipv6_selection (addrs : List String) :
    get_ipv6_address addrs =
      (match addrs.find? ipv6Ok with
       | some ip => stripZone ip
       | none => "") ∧
    get_ipv6_address ["fe80::1%eth0"] = "" ∧
    get_ipv6_address ["2001:db8::1%eth0"] = "2001:db8::1" := by
  refine ⟨?_, by decide, by decide⟩
  induction addrs with
  | nil => rfl
  | cons ip rest ih =>
    by_cases h : ip ≠ "" ∧ ¬pyStartsWith ip "::1" ∧ ¬pyStartsWith ip "fe80"
    · have hb : ipv6Ok ip = true := by
        simp [ipv6Ok, h.1, h.2.1, h.2.2]
      simp [get_ipv6_address, h, List.find?, hb]
    · have hb : ipv6Ok ip = false := by
        simp only [ipv6Ok, Bool.and_eq_false_iff]
        by_cases h1 : ip = ""
        · simp [h1]
        · by_cases h2 : pyStartsWith ip "::1"
          · simp [h2]
          · have h3 : pyStartsWith ip "fe80" = true := by
              by_contra hc
              exact h ⟨h1, by simpa using h2, by simpa using hc⟩
            simp [h3]
      simp [get_ipv6_address, h, List.find?, hb, ih]
      intro h1 h2 h3
      exact absurd ⟨h1, by simp [h2], by simp [h3]⟩ h

end NasMon

namespace NasMon

/-! ## Storage aggregation lemmas -/

theorem any_congr_perm {α} (f : α → Bool) {l l' : List α} (h : l.Perm l') :
    l.any f = l'.any f := by
  cases ha : l.any f
  · cases hb : l'.any f
    · rfl
    · rw [List.any_eq_true] at hb
      obtain ⟨x, hx, hfx⟩ := hb
      have h2 : l.any f = true := List.any_eq_true.mpr ⟨x, h.mem_iff.mpr hx, hfx⟩
      simp_all
  · cases hb : l'.any f
    · rw [List.any_eq_true] at ha
      obtain ⟨x, hx, hfx⟩ := ha
      have h2 : l'.any f = true := List.any_eq_true.mpr ⟨x, h.mem_iff.mp hx, hfx⟩
      simp_all
    · rfl

theorem isEmpty_congr_perm {α} {l l' : List α} (h : l.Perm l') :
    l.isEmpty = l'.isEmpty := by
  cases l <;> cases l' <;> simp_all

/-- The Bool test each volume is scanned with, per backend. -/
def volProblemB (storage_types : List String) (v : Volume) : Bool :=
  (storage_types.contains "zfs" && (v.vtype == "ZFS" && zfsProblemStates.contains (pyUpper v.health))) ||
  (storage_types.contains "mdadm" && (v.vtype == "MDADM" && mdadmProblemStates.contains (pyLower v.raw_state)))

theorem volProblemB_iff (storage_types : List String) (v : Volume) :
    volProblemB storage_types v = true ↔ volProblem storage_types v := by
  simp [volProblemB, volProblem]

theorem overall_of_volumes_cases (storage_types : List String) (vols : List Volume) :
    overall_of_volumes storage_types vols =
      (if vols.isEmpty then "Unknown"
       else if vols.any (volProblemB storage_types) then "Problem"
       else "Healthy") := by
  unfold overall_of_volumes
  by_cases he : vols.isEmpty
  · simp [he]
  · simp only [he, if_false, if_neg he]
    by_cases hz : (storage_types.contains "zfs" &&
        vols.any (fun v => v.vtype == "ZFS" && zfsProblemStates.contains (pyUpper v.health))) = true
    · rw [if_pos hz]
      rw [Bool.and_eq_true, List.any_eq_true] at hz
      obtain ⟨hzt, x, hx, hfx⟩ := hz
      have : vols.any (volProblemB storage_types) = true :=
        List.any_eq_true.mpr ⟨x, hx, by
          rw [volProblemB, Bool.or_eq_true]
          exact Or.inl (by rw [Bool.and_eq_true]; exact ⟨hzt, hfx⟩)⟩
      rw [if_pos this]
    · rw [if_neg hz]
      by_cases hm : (storage_types.contains "mdadm" &&
          vols.any (fun v => v.vtype == "MDADM" && mdadmProblemStates.contains (pyLower v.raw_state))) = true
      · rw [if_pos hm]
        rw [Bool.and_eq_true, List.any_eq_true] at hm
        obtain ⟨hmt, x, hx, hfx⟩ := hm
        have : vols.any (volProblemB storage_types) = true :=
          List.any_eq_true.mpr ⟨x, hx, by
            rw [volProblemB, Bool.or_eq_true]
            exact Or.inr (by rw [Bool.and_eq_true]; exact ⟨hmt, hfx⟩)⟩
        rw [if_pos this]
      · rw [if_neg hm]
        have : vols.any (volProblemB storage_types) = false := by
          rw [Bool.eq_false_iff]
          intro hc
          rw [List.any_eq_true] at hc
          obtain ⟨x, hx, hfx⟩ := hc
          rw [volProblemB, Bool.or_eq_true] at hfx
          rcases hfx with hfx | hfx
          · rw [Bool.and_eq_true] at hfx
            exact absurd (Bool.and_eq_true .. |>.mpr
              ⟨hfx.1, List.any_eq_true.mpr ⟨x, hx, hfx.2⟩⟩) hz
          · rw [Bool.and_eq_true] at hfx
            exact absurd (Bool.and_eq_true .. |>.mpr
              ⟨hfx.1, List.any_eq_true.mpr ⟨x, hx, hfx.2⟩⟩) hm
        have hfalse : ¬vols.any (volProblemB storage_types) = true := by
          rw [this]; exact Bool.false_ne_true
        rw [if_neg hfalse]

end NasMon

namespace NasMon

/-- Claim C4: with storage monitoring and health monitoring enabled, the
overall verdict is `"Unknown"` exactly when zero pools are discovered,
`"Problem"` exactly when some discovered pool's backend-specific raw state
is in that backend's problem vocabulary, `"Healthy"` otherwise — and the
pool-scanning verdict is invariant under reordering of the scanned pools. -/
theorem c4_overall_storage_state (c : StorageConfig) (env : StorageEnv)
    (h1 : c.enabled = true) (h2 : c.health_enabled = true) :
    (get_overall_storage_state c env = "Unknown" ↔ storage_collect c env = []) ∧
    (get_overall_storage_state c env = "Problem" ↔
      ∃ v ∈ storage_collect c env, volProblem c.storage_types v) ∧
    (get_overall_storage_state c env = "Healthy" ↔
      storage_collect c env ≠ [] ∧ ∀ v ∈ storage_collect c env, ¬volProblem c.storage_types v) ∧
    (∀ vols vols' : List Volume, vols.Perm vols' →
      overall_of_volumes c.storage_types vols = overall_of_volumes c.storage_types vols') := by
  have hover : get_overall_storage_state c env =
      overall_of_volumes c.storage_types (storage_collect c env) := by
    unfold get_overall_storage_state
    rw [h1, h2]
    rfl
  rw [hover, overall_of_volumes_cases]
  set vols := storage_collect c env with hv
  have hPB : ∀ x, volProblemB c.storage_types x = true ↔ volProblem c.storage_types x :=
    fun x => volProblemB_iff c.storage_types x
  refine ⟨?_, ?_, ?_, ?_⟩
  · by_cases he : vols.isEmpty = true
    · rw [if_pos he]
      exact ⟨fun _ => List.isEmpty_iff.mp he, fun _ => rfl⟩
    · rw [if_neg he]
      have hne : vols = [] → False := fun hc => he (List.isEmpty_iff.mpr hc)
      by_cases hp : vols.any (volProblemB c.storage_types) = true
      · rw [if_pos hp]
        exact ⟨fun hc => absurd hc (by decide), fun hc => absurd hc hne⟩
      · rw [if_neg hp]
        exact ⟨fun hc => absurd hc (by decide), fun hc => absurd hc hne⟩
  · by_cases he : vols.isEmpty = true
    · rw [if_pos he]
      constructor
      · intro hc; exact absurd hc (by decide)
      · rintro ⟨x, hx, -⟩
        rw [List.isEmpty_iff.mp he] at hx
        exact absurd hx (List.not_mem_nil x)
    · rw [if_neg he]
      by_cases hp : vols.any (volProblemB c.storage_types) = true
      · rw [if_pos hp]
        rw [List.any_eq_true] at hp
        obtain ⟨x, hx, hfx⟩ := hp
        exact ⟨fun _ => ⟨x, hx, (hPB x).mp hfx⟩, fun _ => rfl⟩
      · rw [if_neg hp]
        constructor
        · intro hc; exact absurd hc (by decide)
        · rintro ⟨x, hx, hvp⟩
          exact absurd (List.any_eq_true.mpr ⟨x, hx, (hPB x).mpr hvp⟩) hp
  · by_cases he : vols.isEmpty = true
    · rw [if_pos he]
      constructor
      · intro hc; exact absurd hc (by decide)
      · rintro ⟨hne, -⟩; exact absurd (List.isEmpty_iff.mp he) hne
    · rw [if_neg he]
      have hne : vols ≠ [] := fun hc => he (List.isEmpty_iff.mpr hc)
      by_cases hp : vols.any (volProblemB c.storage_types) = true
      · rw [if_pos hp]
        constructor
        · intro hc; exact absurd hc (by decide)
        · rintro ⟨-, hall⟩
          rw [List.any_eq_true] at hp
          obtain ⟨x, hx, hfx⟩ := hp
          exact absurd ((hPB x).mp hfx) (hall x hx)
      · rw [if_neg hp]
        refine ⟨fun _ => ⟨hne, ?_⟩, fun _ => rfl⟩
        intro x hx hvp
        exact absurd (List.any_eq_true.mpr ⟨x, hx, (hPB x).mpr hvp⟩) hp
  · intro vs vs2 hperm
    rw [overall_of_volumes_cases, overall_of_volumes_cases,
      isEmpty_congr_perm hperm, any_congr_perm _ hperm]

/-- Witness for C4: one healthy ZFS pool under an enabled configuration. -/
theorem c4_overall_storage_state_witness :
    (get_overall_storage_state sampleStorCfg sampleStorEnv = "Unknown" ↔
      storage_collect sampleStorCfg sampleStorEnv = []) ∧
    (get_overall_storage_state sampleStorCfg sampleStorEnv = "Problem" ↔
      ∃ v ∈ storage_collect sampleStorCfg sampleStorEnv,
        volProblem sampleStorCfg.storage_types v) ∧
    (get_overall_storage_state sampleStorCfg sampleStorEnv = "Healthy" ↔
      storage_collect sampleStorCfg sampleStorEnv ≠ [] ∧
      ∀ v ∈ storage_collect sampleStorCfg sampleStorEnv,
        ¬volProblem sampleStorCfg.storage_types v) ∧
    (∀ vols vols' : List Volume, vols.Perm vols' →
      overall_of_volumes sampleStorCfg.storage_types vols =
        overall_of_volumes sampleStorCfg.storage_types vols') :=
  c4_overall_storage_state sampleStorCfg sampleStorEnv rfl rfl

/-- Claim C9: a disabled storage or storage-health configuration makes
`get_overall_storage_state` return `"Healthy"` immediately (never
`"Unknown"`), for every backend environment, while `collect` under a
disabled configuration returns zero pools. -/
theorem c9_disabled_returns_healthy (c : StorageConfig) (env : StorageEnv)
    (h : c.enabled = false ∨ c.health_enabled = false) :
    get_overall_storage_state c env = "Healthy" ∧
    (c.enabled = false → storage_collect c env = []) := by
  constructor
  · unfold get_overall_storage_state
    rcases h with h | h <;> simp [h]
  · intro he
    unfold storage_collect
    simp [he]

/-- Witness for C9: storage monitoring disabled. -/
theorem c9_disabled_returns_healthy_witness :
    get_overall_storage_state ⟨["zfs"], false, true⟩ sampleStorEnv = "Healthy" ∧
    ((⟨["zfs"], false, true⟩ : StorageConfig).enabled = false →
      storage_collect ⟨["zfs"], false, true⟩ sampleStorEnv = []) :=
  c9_disabled_returns_healthy ⟨["zfs"], false, true⟩ sampleStorEnv (Or.inl rfl)

end NasMon

namespace NasMon

/-- Claim C5: the snapshot's `storage_state` is the storage collector's
richer verdict exactly when storage monitoring and storage-health
monitoring are enabled and that verdict is not `"Unknown"`; in every other
case (including a richer-check `"Unknown"`) it is the provisional verdict
from the temperature collector's simpler SMART health check. -/
theorem c5_storage_state_override (env : DaemonEnv) :
    (collect_all_data env).storage_state =
      (if env.storConfig.enabled = true ∧ env.storConfig.health_enabled = true ∧
          get_overall_storage_state env.storConfig env.storEnv ≠ "Unknown"
       then get_overall_storage_state env.storConfig env.storEnv
       else get_storage_health env.smartEnv env.hdd_devices) := by
  unfold collect_all_data
  by_cases h1 : env.storConfig.enabled = true
  · by_cases h2 : env.storConfig.health_enabled = true
    · by_cases h3 : get_overall_storage_state env.storConfig env.storEnv = "Unknown"
      · simp [h1, h2, h3]
      · simp [h1, h2, h3]
    · simp [h1, h2]
  · simp [h1]

end NasMon

namespace NasMon

/-! ## Size-formatting lemmas -/

theorem sizeLoopIdx_ge (n : ℕ) : ∀ fuel i, i ≤ sizeLoopIdx n fuel i := by
  intro fuel
  induction fuel with
  | zero => intro i; exact le_refl i
  | succ f ih =>
    intro i
    show i ≤ (if 1024 ^ (i + 1) ≤ n ∧ i < 5 then sizeLoopIdx n f (i + 1) else i)
    by_cases hc : 1024 ^ (i + 1) ≤ n ∧ i < 5
    · rw [if_pos hc]
      exact le_trans (Nat.le_succ i) (ih (i + 1))
    · rw [if_neg hc]

theorem sizeLoopIdx_le (n : ℕ) : ∀ fuel i, i ≤ 5 → sizeLoopIdx n fuel i ≤ 5 := by
  intro fuel
  induction fuel with
  | zero => intro i hi; exact hi
  | succ f ih =>
    intro i hi
    show (if 1024 ^ (i + 1) ≤ n ∧ i < 5 then sizeLoopIdx n f (i + 1) else i) ≤ 5
    by_cases hc : 1024 ^ (i + 1) ≤ n ∧ i < 5
    · rw [if_pos hc]
      exact ih (i + 1) (by omega)
    · rw [if_neg hc]
      exact hi

theorem sizeLoopIdx_pow_le (n : ℕ) :
    ∀ fuel i, 1024 ^ i ≤ n → 1024 ^ sizeLoopIdx n fuel i ≤ n := by
  intro fuel
  induction fuel with
  | zero => intro i hi; exact hi
  | succ f ih =>
    intro i hi
    show 1024 ^ (if 1024 ^ (i + 1) ≤ n ∧ i < 5 then sizeLoopIdx n f (i + 1) else i) ≤ n
    by_cases hc : 1024 ^ (i + 1) ≤ n ∧ i < 5
    · rw [if_pos hc]
      exact ih (i + 1) hc.1
    · rw [if_neg hc]
      exact hi

theorem sizeLoopIdx_lt_pow (n : ℕ) :
    ∀ fuel i, 5 ≤ i + fuel → sizeLoopIdx n fuel i < 5 →
      n < 1024 ^ (sizeLoopIdx n fuel i + 1) := by
  intro fuel
  induction fuel with
  | zero =>
    intro i hf hlt
    have he : sizeLoopIdx n 0 i = i := rfl
    rw [he] at hlt
    omega
  | succ f ih =>
    intro i hf
    have he : sizeLoopIdx n (f + 1) i
        = if 1024 ^ (i + 1) ≤ n ∧ i < 5 then sizeLoopIdx n f (i + 1) else i := rfl
    rw [he]
    by_cases hc : 1024 ^ (i + 1) ≤ n ∧ i < 5
    · rw [if_pos hc]
      exact ih (i + 1) (by omega)
    · rw [if_neg hc]
      intro hlt
      have hnle : ¬1024 ^ (i + 1) ≤ n := fun hle => hc ⟨hle, hlt⟩
      omega

theorem sizeLoopIdx_pos (n : ℕ) (h : 1024 ≤ n) : 1 ≤ sizeLoopIdx n 5 0 := by
  show 1 ≤ (if 1024 ^ (0 + 1) ≤ n ∧ 0 < 5 then sizeLoopIdx n 4 1 else 0)
  rw [if_pos ⟨by simpa using h, by omega⟩]
  exact sizeLoopIdx_ge n 4 1

theorem sizeLoopIdx_eq_zero (n : ℕ) (h : n < 1024) : sizeLoopIdx n 5 0 = 0 := by
  show (if 1024 ^ (0 + 1) ≤ n ∧ 0 < 5 then sizeLoopIdx n 4 1 else 0) = 0
  rw [if_neg]
  rintro ⟨hle, -⟩
  rw [pow_one] at hle
  omega

/-- Claim C6: `_format_size` uses binary units; inputs below 1024 print as
a bare truncated integer with `B` and no decimal point; inputs at or above
1024 print one decimal digit at the unit selected by the 1024-division
loop; and the four concrete examples of the spec hold. -/
theorem c6_format_size (n : ℕ) :
    (n < 1024 → format_size n = toString n ++ "B") ∧
    (1024 ≤ n → ∃ k whole tenth : ℕ, 1 ≤ k ∧ k ≤ 5 ∧ tenth < 10 ∧
      1024 ^ k ≤ n ∧ (k < 5 → n < 1024 ^ (k + 1)) ∧
      format_size n = toString whole ++ "." ++ toString tenth ++ sizeUnits.getD k "") ∧
    format_size 0 = "0B" ∧ format_size 512 = "512B" ∧
    format_size 1536 = "1.5KB" ∧ format_size (1024 * 1024) = "1.0MB" := by
  refine ⟨?_, ?_, by decide, by decide, by decide, by decide⟩
  · intro h
    by_cases h0 : n = 0
    · subst h0; decide
    · unfold format_size
      rw [if_neg h0, sizeLoopIdx_eq_zero n h]
      rfl
  · intro h
    have h0 : n ≠ 0 := by omega
    have hk1 : 1 ≤ sizeLoopIdx n 5 0 := sizeLoopIdx_pos n h
    have hk5 : sizeLoopIdx n 5 0 ≤ 5 := sizeLoopIdx_le n 5 0 (by omega)
    have hkle : 1024 ^ sizeLoopIdx n 5 0 ≤ n := sizeLoopIdx_pow_le n 5 0 (by rw [pow_zero]; omega)
    have hklt : sizeLoopIdx n 5 0 < 5 → n < 1024 ^ (sizeLoopIdx n 5 0 + 1) :=
      sizeLoopIdx_lt_pow n 5 0 (by omega)
    refine ⟨sizeLoopIdx n 5 0,
      (if 1024 ^ sizeLoopIdx n 5 0 < 2 * (10 * n % 1024 ^ sizeLoopIdx n 5 0)
        then 10 * n / 1024 ^ sizeLoopIdx n 5 0 + 1
        else if 2 * (10 * n % 1024 ^ sizeLoopIdx n 5 0) < 1024 ^ sizeLoopIdx n 5 0
        then 10 * n / 1024 ^ sizeLoopIdx n 5 0
        else if 10 * n / 1024 ^ sizeLoopIdx n 5 0 % 2 = 0
        then 10 * n / 1024 ^ sizeLoopIdx n 5 0
        else 10 * n / 1024 ^ sizeLoopIdx n 5 0 + 1) / 10,
      (if 1024 ^ sizeLoopIdx n 5 0 < 2 * (10 * n % 1024 ^ sizeLoopIdx n 5 0)
        then 10 * n / 1024 ^ sizeLoopIdx n 5 0 + 1
        else if 2 * (10 * n % 1024 ^ sizeLoopIdx n 5 0) < 1024 ^ sizeLoopIdx n 5 0
        then 10 * n / 1024 ^ sizeLoopIdx n 5 0
        else if 10 * n / 1024 ^ sizeLoopIdx n 5 0 % 2 = 0
        then 10 * n / 1024 ^ sizeLoopIdx n 5 0
        else 10 * n / 1024 ^ sizeLoopIdx n 5 0 + 1) % 10,
      hk1, hk5, Nat.mod_lt _ (by omega), hkle, hklt, ?_⟩
    unfold format_size
    rw [if_neg h0]
    show (if sizeLoopIdx n 5 0 = 0 then toString n ++ "B"
      else formatDec1 n (1024 ^ sizeLoopIdx n 5 0) ++ sizeUnits.getD (sizeLoopIdx n 5 0) "") = _
    rw [if_neg (by omega)]
    rfl

/-- Witness for C6 at `n = 777` and `n = 1536`. -/
theorem c6_format_size_witness :
    format_size 777 = toString 777 ++ "B" ∧
    (∃ k whole tenth : ℕ, 1 ≤ k ∧ k ≤ 5 ∧ tenth < 10 ∧
      1024 ^ k ≤ 1536 ∧ (k < 5 → 1536 < 1024 ^ (k + 1)) ∧
      format_size 1536 = toString whole ++ "." ++ toString tenth ++ sizeUnits.getD k "") :=
  ⟨(c6_format_size 777).1 (by omega), (c6_format_size 1536).2.1 (by omega)⟩

end NasMon

namespace NasMon

set_option maxHeartbeats 2000000 in
/-- Claim C1: for every configured device list and every probe outcome, the
reading has exactly the keys `system, hdd1..hdd5` (in that insertion
order), `system` carries the CPU probe result, and slot `i` carries the
`i`-th device's probe result (`0.0` for a failed probe, a missing device,
or an unconfigured trailing slot; devices beyond the fifth are ignored). -/
theorem c1_temperature_slots (env : TempEnv) (hdd_devices : List String) :
    dkeys (temperature_collect env hdd_devices) =
      ["system", "hdd1", "hdd2", "hdd3", "hdd4", "hdd5"] ∧
    dget (temperature_collect env hdd_devices) "system" = some env.cpuTemp ∧
    dget (temperature_collect env hdd_devices) "hdd1" = some (slotSpec env hdd_devices 1) ∧
    dget (temperature_collect env hdd_devices) "hdd2" = some (slotSpec env hdd_devices 2) ∧
    dget (temperature_collect env hdd_devices) "hdd3" = some (slotSpec env hdd_devices 3) ∧
    dget (temperature_collect env hdd_devices) "hdd4" = some (slotSpec env hdd_devices 4) ∧
    dget (temperature_collect env hdd_devices) "hdd5" = some (slotSpec env hdd_devices 5) := by
  rcases hdd_devices with _ | ⟨a, _ | ⟨b, _ | ⟨c, _ | ⟨d, _ | ⟨e, rest⟩⟩⟩⟩⟩
  · have hD : temperature_collect env [] =
        [("system", env.cpuTemp), ("hdd1", 0), ("hdd2", 0), ("hdd3", 0),
         ("hdd4", 0), ("hdd5", 0)] := rfl
    rw [hD]
    exact ⟨rfl, rfl, rfl, rfl, rfl, rfl, rfl⟩
  · have hD : temperature_collect env [a] =
        [("system", env.cpuTemp),
         ("hdd1", if env.hddProbe a > 0 then env.hddProbe a else 0),
         ("hdd2", 0), ("hdd3", 0), ("hdd4", 0), ("hdd5", 0)] := rfl
    rw [hD]
    exact ⟨rfl, rfl, rfl, rfl, rfl, rfl, rfl⟩
  · have hD : temperature_collect env [a, b] =
        [("system", env.cpuTemp),
         ("hdd1", if env.hddProbe a > 0 then env.hddProbe a else 0),
         ("hdd2", if env.hddProbe b > 0 then env.hddProbe b else 0),
         ("hdd3", 0), ("hdd4", 0), ("hdd5", 0)] := rfl
    rw [hD]
    exact ⟨rfl, rfl, rfl, rfl, rfl, rfl, rfl⟩
  · have hD : temperature_collect env [a, b, c] =
        [("system", env.cpuTemp),
         ("hdd1", if env.hddProbe a > 0 then env.hddProbe a else 0),
         ("hdd2", if env.hddProbe b > 0 then env.hddProbe b else 0),
         ("hdd3", if env.hddProbe c > 0 then env.hddProbe c else 0),
         ("hdd4", 0), ("hdd5", 0)] := rfl
    rw [hD]
    exact ⟨rfl, rfl, rfl, rfl, rfl, rfl, rfl⟩
  · have hD : temperature_collect env [a, b, c, d] =
        [("system", env.cpuTemp),
         ("hdd1", if env.hddProbe a > 0 then env.hddProbe a else 0),
         ("hdd2", if env.hddProbe b > 0 then env.hddProbe b else 0),
         ("hdd3", if env.hddProbe c > 0 then env.hddProbe c else 0),
         ("hdd4", if env.hddProbe d > 0 then env.hddProbe d else 0),
         ("hdd5", 0)] := rfl
    rw [hD]
    exact ⟨rfl, rfl, rfl, rfl, rfl, rfl, rfl⟩
  · have hD : temperature_collect env (a :: b :: c :: d :: e :: rest) =
        [("system", env.cpuTemp),
         ("hdd1", if env.hddProbe a > 0 then env.hddProbe a else 0),
         ("hdd2", if env.hddProbe b > 0 then env.hddProbe b else 0),
         ("hdd3", if env.hddProbe c > 0 then env.hddProbe c else 0),
         ("hdd4", if env.hddProbe d > 0 then env.hddProbe d else 0),
         ("hdd5", if env.hddProbe e > 0 then env.hddProbe e else 0)] := rfl
    rw [hD]
    exact ⟨rfl, rfl, rfl, rfl, rfl, rfl, rfl⟩

end NasMon

namespace NasMon

/-- Claim C8: for the given `/proc/mdstat` content the parsed array has raw
state `active`, raid level `raid1` and device list `sdb1,sda1` (positional
`[n]` annotations stripped); mapping the raw state gives the normalized
state `Healthy`; the state mapping is case-insensitive, and unrecognized
tokens pass through title-cased rather than being dropped. -/
theorem c8_mdstat_scenario :
    get_array_state "md0" "md0 : active raid1 sdb1[1] sda1[0]\n      1048576 blocks\n" =
      some { state := some "active", raid_level := some "raid1", devices := some "sdb1,sda1" } ∧
    map_state "active" = "Healthy" ∧
    (∀ s : String, map_state s = map_state (pyLower s)) ∧
    map_state "WEIRD" = "Weird" := by
  refine ⟨by decide, by decide, ?_, by decide⟩
  intro s
  unfold map_state
  rw [pyLower_pyLower, pyTitle_pyLower]

end NasMon
